import Mathlib

/-!
Verification of the Bernoulli equation solver (`bernoulli_solver.py`).

The module under study has three operations:
* `analytical_solution` — closed-form exit velocity, failing with a domain
  error when the radicand is negative or the density causes a division fault;
* `bernoulli_equation` — the scaled residual of Bernoulli's relation;
* `secant_method` — an iterative root finder with a positivity guard, a
  slope-collapse guard, an oscillation detector, and an initial-guess nudge.

The embedding below is generic over a linear ordered field: instantiated at ℚ
the definitions compute the Python loop exactly (the loop body is rational
arithmetic once the inputs are rational), and at ℝ the analytical square root
is available.  Division is total (`a / 0 = 0`), which reproduces the Python
outcome: when `x1 = x0` the Python slope line raises `ZeroDivisionError`,
which is caught and turned into the result `(None, iterations, False)`; in the
embedding the slope evaluates to `0`, whose magnitude is below the `1e-10`
threshold, producing the same result.
-/

namespace Bernoulli

/-- The seven physical parameters `(P1, P2, rho, g, h1, h2, v1)`. -/
structure Params (α : Type) where
  P1 : α
  P2 : α
  rho : α
  g : α
  h1 : α
  h2 : α
  v1 : α
  deriving DecidableEq

variable {α : Type} [LinearOrderedField α]

/-- Scaled residual of Bernoulli's equation (`bernoulli_equation` in the
source): the energy imbalance divided by `|P1|` when `|P1| > 1`, else by 1. -/
def bernoulli_equation (v2 : α) (p : Params α) : α :=
  ((p.P1 + 1 / 2 * p.rho * p.v1 ^ 2 + p.rho * p.g * p.h1) -
    (p.P2 + 1 / 2 * p.rho * v2 ^ 2 + p.rho * p.g * p.h2)) /
    (if 1 < |p.P1| then |p.P1| else 1)

/-- The term under the square root in `analytical_solution`. -/
def analytical_radicand (p : Params α) : α :=
  2 / p.rho * (p.P1 - p.P2 + p.rho * p.g * (p.h1 - p.h2) + 1 / 2 * p.rho * p.v1 ^ 2)

/-- Errors raised by the analytical path: a negative radicand (carrying its
value, as the source's message does) or the division fault for `rho = 0`. -/
inductive DomainError (α : Type) where
  | negRadicand (radicand : α)
  | divisionFault
  deriving DecidableEq

/-- Closed-form solver (`analytical_solution` in the source).  With `rho = 0`
the Python `2/rho` raises `ZeroDivisionError` before the sign test, re-raised
as a `ValueError`; a negative radicand raises a `ValueError` carrying the
radicand. -/
noncomputable def analytical_solution (p : Params ℝ) : Except (DomainError ℝ) ℝ :=
  if p.rho = 0 then .error .divisionFault
  else if analytical_radicand p < 0 then .error (.negRadicand (analytical_radicand p))
  else .ok (Real.sqrt (analytical_radicand p))

/-- The oscillation test of the source (lines 72–74): once more than three
records exist, the magnitudes of the last two residuals must each strictly
exceed the magnitude of the third-from-last. -/
def oscillating (iters : List (ℕ × α × α)) : Bool :=
  if 3 < iters.length then
    match iters.reverse with
    | c :: b :: a :: _ => decide (|a.2.2| < |b.2.2|) && decide (|a.2.2| < |c.2.2|)
    | _ => false
  else false

/-- The update step of the secant loop (source lines 60–64): the raw secant
update, replaced by the midpoint of the current pair when non-positive. -/
def secantUpdate (f : α → Params α → α) (p : Params α) (x0 x1 : α) : α :=
  if x1 - f x1 p * (x1 - x0) / (f x1 p - f x0 p) ≤ 0 then (x0 + x1) / 2
  else x1 - f x1 p * (x1 - x0) / (f x1 p - f x0 p)

/-- The `for i in range(max_iter)` loop of `secant_method`, with the remaining
iteration budget as first argument and the current Python loop index `i` as
second.  Each pass appends `(i+1, x1, f x1)`, then checks convergence, slope
collapse, and (after the update) oscillation, in the source's order. -/
def secantLoop (f : α → Params α → α) (p : Params α) (tol : α) :
    ℕ → ℕ → α → α → List (ℕ × α × α) → Option α × List (ℕ × α × α) × Bool
  | 0, _, _, x1, iters => (some x1, iters, false)
  | fuel + 1, i, x0, x1, iters =>
    if |f x1 p| < tol then (some x1, iters ++ [(i + 1, x1, f x1 p)], true)
    else if |(f x1 p - f x0 p) / (x1 - x0)| < 1 / 10 ^ 10 then
      (none, iters ++ [(i + 1, x1, f x1 p)], false)
    else if oscillating (iters ++ [(i + 1, x1, f x1 p)]) then
      (none, iters ++ [(i + 1, x1, f x1 p)], false)
    else
      secantLoop f p tol fuel (i + 1) x1 (secantUpdate f p x0 x1)
        (iters ++ [(i + 1, x1, f x1 p)])

/-- Initial-guess adjustment (source lines 43–44): if the guesses are within
tolerance of each other the second becomes `x0 * 1.1`. -/
def nudgeGuess (tol x0 x1 : α) : α :=
  if |x1 - x0| < tol then x0 * (11 / 10) else x1

/-- The iterative solver (`secant_method` in the source): validates the
guesses, nudges the second one if needed, and runs the loop. -/
def secant_method (f : α → Params α → α) (x0 x1 : α) (p : Params α) (tol : α)
    (max_iter : ℕ) : Except String (Option α × List (ℕ × α × α) × Bool) :=
  if x0 ≤ 0 ∨ x1 ≤ 0 then .error "Initial guesses must be positive"
  else .ok (secantLoop f p tol max_iter 0 x0 (nudgeGuess tol x0 x1) [])

/-- Parameters of the spec's boundary scenario. -/
def boundaryParams : Params ℚ := ⟨101325, 101325, 1000, 981 / 100, 0, 1, 2⟩

/-- The boundary scenario's parameters over ℝ, for the analytical path. -/
noncomputable def boundaryParamsR : Params ℝ := ⟨101325, 101325, 1000, 981 / 100, 0, 1, 2⟩

/-- Parameters of the spec's failure scenario. -/
noncomputable def failureParamsR : Params ℝ := ⟨0, 10 ^ 9, 1000, 981 / 100, 0, 0, 1⟩

/-- Parameters with zero radicand, for exercising the analytical success path. -/
noncomputable def analyticalWitnessParams : Params ℝ := ⟨0, 0, 1, 0, 0, 0, 0⟩

/-- Parameters with `rho = 0`, giving the constant residual `-1`: the slope
collapses at the first iteration. -/
def flatParams : Params ℚ := ⟨0, 1, 0, 0, 0, 0, 0⟩

/-- Parameters giving the residual `-v2 ^ 2` (zero pressures and heights,
`rho = 2`, `v1 = 0`). -/
def squareParams : Params ℚ := ⟨0, 0, 2, 0, 0, 0, 0⟩

/-! ### Invariant lemmas about the loop -/

/-- The update step keeps candidates strictly positive. -/
lemma secantUpdate_pos (f : α → Params α → α) (p : Params α) {x0 x1 : α}
    (h0 : 0 < x0) (h1 : 0 < x1) : 0 < secantUpdate f p x0 x1 := by
  unfold secantUpdate
  split_ifs with h
  · have : 0 < x0 + x1 := by linarith
    linarith [div_pos this two_pos]
  · push_neg at h
    exact h

/-- The nudged second guess is positive when both guesses are. -/
lemma nudgeGuess_pos {tol x0 x1 : α} (h0 : 0 < x0) (h1 : 0 < x1) :
    0 < nudgeGuess tol x0 x1 := by
  unfold nudgeGuess
  split_ifs with h
  · nlinarith
  · exact h1

/-- The oscillation test is false on traces of at most three records. -/
lemma oscillating_short {l : List (ℕ × α × α)} (h : ¬3 < l.length) :
    oscillating l = false := by
  unfold oscillating
  rw [if_neg h]

/-- One-step unfolding of the loop, for proofs that must keep the recursive
call folded. -/
lemma secantLoop_succ_eq (f : α → Params α → α) (p : Params α) (tol : α)
    (fuel i : ℕ) (x0 x1 : α) (iters : List (ℕ × α × α)) :
    secantLoop f p tol (fuel + 1) i x0 x1 iters =
      if |f x1 p| < tol then (some x1, iters ++ [(i + 1, x1, f x1 p)], true)
      else if |(f x1 p - f x0 p) / (x1 - x0)| < 1 / 10 ^ 10 then
        (none, iters ++ [(i + 1, x1, f x1 p)], false)
      else if oscillating (iters ++ [(i + 1, x1, f x1 p)]) then
        (none, iters ++ [(i + 1, x1, f x1 p)], false)
      else
        secantLoop f p tol fuel (i + 1) x1 (secantUpdate f p x0 x1)
          (iters ++ [(i + 1, x1, f x1 p)]) :=
  rfl

/-- The trace only ever grows. -/
lemma secantLoop_length_le (f : α → Params α → α) (p : Params α) (tol : α) :
    ∀ (fuel i : ℕ) (x0 x1 : α) (iters : List (ℕ × α × α)),
      iters.length ≤ ((secantLoop f p tol fuel i x0 x1 iters).2.1).length := by
  intro fuel
  induction fuel with
  | zero => intro i x0 x1 iters; simp [secantLoop]
  | succ n ih =>
    intro i x0 x1 iters
    simp only [secantLoop]
    split_ifs with h1 h2 h3
    · simp
    · simp
    · simp
    · exact le_trans (by simp)
        (ih (i + 1) x1 (secantUpdate f p x0 x1) (iters ++ [(i + 1, x1, f x1 p)]))

/-- With at least one unit of budget, the loop appends at least one record. -/
lemma secantLoop_length_succ (f : α → Params α → α) (p : Params α) (tol : α)
    (fuel i : ℕ) (x0 x1 : α) (iters : List (ℕ × α × α)) :
    iters.length + 1 ≤ ((secantLoop f p tol (fuel + 1) i x0 x1 iters).2.1).length := by
  simp only [secantLoop]
  split_ifs with h1 h2 h3
  · simp
  · simp
  · simp
  · calc iters.length + 1 = (iters ++ [(i + 1, x1, f x1 p)]).length := by simp
      _ ≤ _ := secantLoop_length_le f p tol fuel (i + 1) x1 (secantUpdate f p x0 x1) _

/-- The loop reports `converged = true` only with a solution whose residual
magnitude is below the tolerance. -/
lemma secantLoop_converged_spec (f : α → Params α → α) (p : Params α) (tol : α) :
    ∀ (fuel i : ℕ) (x0 x1 : α) (iters : List (ℕ × α × α)),
      (secantLoop f p tol fuel i x0 x1 iters).2.2 = true →
      ∃ s, (secantLoop f p tol fuel i x0 x1 iters).1 = some s ∧ |f s p| < tol := by
  intro fuel
  induction fuel with
  | zero => intro i x0 x1 iters h; simp [secantLoop] at h
  | succ n ih =>
    intro i x0 x1 iters
    simp only [secantLoop]
    split_ifs with h1 h2 h3
    · intro _
      exact ⟨x1, rfl, h1⟩
    · intro h
      simp at h
    · intro h
      simp at h
    · exact ih _ _ _ _

/-- All candidates recorded by the loop are positive, given positive inputs
and a trace of positive candidates. -/
lemma secantLoop_pos_trace (f : α → Params α → α) (p : Params α) (tol : α) :
    ∀ (fuel i : ℕ) (x0 x1 : α) (iters : List (ℕ × α × α)), 0 < x0 → 0 < x1 →
      (∀ e ∈ iters, 0 < e.2.1) →
      ∀ e ∈ (secantLoop f p tol fuel i x0 x1 iters).2.1, 0 < e.2.1 := by
  intro fuel
  induction fuel with
  | zero =>
    intro i x0 x1 iters _ _ hiters
    simpa [secantLoop] using hiters
  | succ n ih =>
    intro i x0 x1 iters hx0 hx1 hiters
    have hiters1 : ∀ e ∈ iters ++ [(i + 1, x1, f x1 p)], 0 < e.2.1 := by
      intro e he
      rcases List.mem_append.mp he with h | h
      · exact hiters e h
      · rw [List.mem_singleton] at h
        subst h
        exact hx1
    simp only [secantLoop]
    split_ifs with h1 h2 h3
    · exact hiters1
    · exact hiters1
    · exact hiters1
    · exact ih _ _ _ _ hx1 (secantUpdate_pos f p hx0 hx1) hiters1

/-- Appending a single element determines `getLast?`. -/
lemma getLast?_append_singleton {β : Type} (l : List β) (a : β) :
    (l ++ [a]).getLast? = some a :=
  List.getLast?_concat l

/-- Shape of a budget-exhaustion exit: if the loop returns a present solution
with `converged = false`, the solution is one update step beyond the last
recorded candidate, whose residual was not within tolerance, and exactly
`fuel` records were appended. -/
lemma secantLoop_exhaust_spec (f : α → Params α → α) (p : Params α) (tol : α) :
    ∀ (n i : ℕ) (x0 x1 : α) (iters : List (ℕ × α × α)) (s : α),
      (secantLoop f p tol (n + 1) i x0 x1 iters).1 = some s →
      (secantLoop f p tol (n + 1) i x0 x1 iters).2.2 = false →
      ∃ y0 y1, s = secantUpdate f p y0 y1 ∧
        (secantLoop f p tol (n + 1) i x0 x1 iters).2.1.getLast? =
          some (i + (n + 1), y1, f y1 p) ∧
        ¬|f y1 p| < tol ∧
        (secantLoop f p tol (n + 1) i x0 x1 iters).2.1.length =
          iters.length + (n + 1) := by
  intro n
  induction n with
  | zero =>
    intro i x0 x1 iters s
    rw [secantLoop_succ_eq]
    split_ifs with h1 h2 h3
    · intro _ hc
      simp at hc
    · intro hs
      simp at hs
    · intro hs
      simp at hs
    · intro hs _
      simp only [secantLoop] at hs ⊢
      refine ⟨x0, x1, ?_, ?_, h1, ?_⟩
      · simpa using hs.symm
      · rw [getLast?_append_singleton]
      · simp
  | succ m ih =>
    intro i x0 x1 iters s
    rw [secantLoop_succ_eq]
    split_ifs with h1 h2 h3
    · intro _ hc
      simp at hc
    · intro hs
      simp at hs
    · intro hs
      simp at hs
    · intro hs hc
      obtain ⟨y0, y1, hy, hlast, hytol, hlen⟩ :=
        ih (i + 1) x1 (secantUpdate f p x0 x1) (iters ++ [(i + 1, x1, f x1 p)]) s hs hc
      refine ⟨y0, y1, hy, ?_, hytol, ?_⟩
      · rw [hlast]
        have harith : i + 1 + (m + 1) = i + (m + 1 + 1) := by omega
        rw [harith]
      · rw [hlen, List.length_append]
        simp
        omega

/-! ### Single-step evaluation lemmas, for computing concrete runs -/

/-- Convergence exit of one loop pass. -/
lemma secantLoop_conv {f : α → Params α → α} {p : Params α} {tol : α}
    {fuel i : ℕ} {x0 x1 v1 : α} {iters : List (ℕ × α × α)}
    (hf1 : f x1 p = v1) (h1 : |v1| < tol) :
    secantLoop f p tol (fuel + 1) i x0 x1 iters =
      (some x1, iters ++ [(i + 1, x1, v1)], true) := by
  rw [secantLoop_succ_eq, hf1, if_pos h1]

/-- Slope-collapse exit of one loop pass. -/
lemma secantLoop_slope {f : α → Params α → α} {p : Params α} {tol : α}
    {fuel i : ℕ} {x0 x1 v0 v1 : α} {iters : List (ℕ × α × α)}
    (hf0 : f x0 p = v0) (hf1 : f x1 p = v1)
    (h1 : ¬|v1| < tol) (h2 : |(v1 - v0) / (x1 - x0)| < 1 / 10 ^ 10) :
    secantLoop f p tol (fuel + 1) i x0 x1 iters =
      (none, iters ++ [(i + 1, x1, v1)], false) := by
  rw [secantLoop_succ_eq, hf0, hf1, if_neg h1, if_pos h2]

/-- Oscillation exit of one loop pass. -/
lemma secantLoop_osc {f : α → Params α → α} {p : Params α} {tol : α}
    {fuel i : ℕ} {x0 x1 v0 v1 : α} {iters : List (ℕ × α × α)}
    (hf0 : f x0 p = v0) (hf1 : f x1 p = v1)
    (h1 : ¬|v1| < tol) (h2 : ¬|(v1 - v0) / (x1 - x0)| < 1 / 10 ^ 10)
    (h3 : oscillating (iters ++ [(i + 1, x1, v1)]) = true) :
    secantLoop f p tol (fuel + 1) i x0 x1 iters =
      (none, iters ++ [(i + 1, x1, v1)], false) := by
  rw [secantLoop_succ_eq, hf0, hf1, if_neg h1, if_neg h2, if_pos h3]

/-- Continuation of one loop pass: all guards pass and the window shifts. -/
lemma secantLoop_cont {f : α → Params α → α} {p : Params α} {tol : α}
    {fuel i : ℕ} {x0 x1 v0 v1 u : α} {iters : List (ℕ × α × α)}
    (hf0 : f x0 p = v0) (hf1 : f x1 p = v1)
    (h1 : ¬|v1| < tol) (h2 : ¬|(v1 - v0) / (x1 - x0)| < 1 / 10 ^ 10)
    (h3 : oscillating (iters ++ [(i + 1, x1, v1)]) = false)
    (hu : secantUpdate f p x0 x1 = u) :
    secantLoop f p tol (fuel + 1) i x0 x1 iters =
      secantLoop f p tol fuel (i + 1) x1 u (iters ++ [(i + 1, x1, v1)]) := by
  rw [secantLoop_succ_eq, hf0, hf1, if_neg h1, if_neg h2, hu]
  rw [if_neg (by simp [h3])]

/-! ### Residual and update values of the concrete scenarios -/

lemma beq_boundary_1 : bernoulli_equation (1 : ℚ) boundaryParams = -8310 / 101325 := by
  norm_num [bernoulli_equation, boundaryParams, lt_abs, abs_of_pos]

lemma beq_boundary_2 : bernoulli_equation (2 : ℚ) boundaryParams = -9810 / 101325 := by
  norm_num [bernoulli_equation, boundaryParams, lt_abs, abs_of_pos]

lemma beq_boundary_32 : bernoulli_equation (3 / 2 : ℚ) boundaryParams = -8935 / 101325 := by
  norm_num [bernoulli_equation, boundaryParams, lt_abs, abs_of_pos]

lemma beq_boundary_74 : bernoulli_equation (7 / 4 : ℚ) boundaryParams = -37365 / 405300 := by
  norm_num [bernoulli_equation, boundaryParams, lt_abs, abs_of_pos]

lemma beq_boundary_138 : bernoulli_equation (13 / 8 : ℚ) boundaryParams = -146085 / 1621200 := by
  norm_num [bernoulli_equation, boundaryParams, lt_abs, abs_of_pos]

lemma beq_boundary_5 : bernoulli_equation (5 : ℚ) boundaryParams = -20310 / 101325 := by
  norm_num [bernoulli_equation, boundaryParams, lt_abs, abs_of_pos]

lemma beq_flat (v : ℚ) : bernoulli_equation v flatParams = -1 := by
  norm_num [bernoulli_equation, flatParams]

lemma beq_square_small : bernoulli_equation (1 / 2000 : ℚ) squareParams = -(1 / 4000000) := by
  norm_num [bernoulli_equation, squareParams]

lemma update_boundary_1 : secantUpdate bernoulli_equation boundaryParams 1 2 = 3 / 2 := by
  norm_num [secantUpdate, bernoulli_equation, boundaryParams, lt_abs, abs_of_pos]

lemma update_boundary_2 : secantUpdate bernoulli_equation boundaryParams 2 (3 / 2) = 7 / 4 := by
  norm_num [secantUpdate, bernoulli_equation, boundaryParams, lt_abs, abs_of_pos]

lemma update_boundary_3 : secantUpdate bernoulli_equation boundaryParams (3 / 2) (7 / 4) = 13 / 8 := by
  norm_num [secantUpdate, bernoulli_equation, boundaryParams, lt_abs, abs_of_pos]

lemma nudge_1_2 : nudgeGuess (1 / 10 ^ 6 : ℚ) 1 2 = 2 := by
  norm_num [nudgeGuess, abs_lt]

lemma nudge_1_small : nudgeGuess (1 / 10 ^ 6 : ℚ) 1 (1 / 2000) = 1 / 2000 := by
  norm_num [nudgeGuess, abs_of_nonpos]

/-! ### The concrete runs -/

/-- The boundary-scenario run with the full default budget: four iterations,
then the oscillation detector fires. -/
lemma run_boundary_100 :
    secant_method bernoulli_equation (1 : ℚ) 2 boundaryParams (1 / 10 ^ 6) 100 =
      .ok (none, [(1, 2, -9810 / 101325), (2, 3 / 2, -8935 / 101325),
        (3, 7 / 4, -37365 / 405300), (4, 13 / 8, -146085 / 1621200)], false) := by
  simp only [secant_method]
  rw [if_neg (by norm_num), nudge_1_2]
  rw [show (100 : ℕ) = 99 + 1 from rfl]
  rw [secantLoop_cont beq_boundary_1 beq_boundary_2
    (by rw [abs_of_nonpos (by norm_num)]; norm_num)
    (by rw [abs_of_nonpos (by norm_num)]; norm_num)
    (oscillating_short (by norm_num)) update_boundary_1]
  norm_num
  rw [show (99 : ℕ) = 98 + 1 from rfl]
  rw [secantLoop_cont beq_boundary_2 beq_boundary_32
    (by rw [abs_of_nonpos (by norm_num)]; norm_num)
    (by rw [abs_of_nonpos (by norm_num)]; norm_num)
    (oscillating_short (by norm_num)) update_boundary_2]
  norm_num
  rw [show (98 : ℕ) = 97 + 1 from rfl]
  rw [secantLoop_cont beq_boundary_32 beq_boundary_74
    (by rw [abs_of_nonpos (by norm_num)]; norm_num)
    (by rw [abs_of_nonpos (by norm_num)]; norm_num)
    (oscillating_short (by norm_num)) update_boundary_3]
  norm_num
  rw [show (97 : ℕ) = 96 + 1 from rfl]
  rw [secantLoop_osc beq_boundary_74 beq_boundary_138
    (by rw [abs_of_nonpos (by norm_num)]; norm_num)
    (by rw [abs_of_nonpos (by norm_num)]; norm_num)
    (by
      unfold oscillating
      rw [if_pos (by norm_num)]
      norm_num [List.reverse_cons, List.reverse_nil, List.cons_append, List.nil_append,
        List.append_nil, Bool.and_eq_true, decide_eq_true_eq, abs_of_nonpos])]
  norm_num

/-- The boundary-scenario run with a budget of three: the budget is exhausted
and the last (never evaluated) update `13/8` is returned unconverged. -/
lemma run_boundary_3 :
    secant_method bernoulli_equation (1 : ℚ) 2 boundaryParams (1 / 10 ^ 6) 3 =
      .ok (some (13 / 8), [(1, 2, -9810 / 101325), (2, 3 / 2, -8935 / 101325),
        (3, 7 / 4, -37365 / 405300)], false) := by
  simp only [secant_method]
  rw [if_neg (by norm_num), nudge_1_2]
  rw [show (3 : ℕ) = 2 + 1 from rfl]
  rw [secantLoop_cont beq_boundary_1 beq_boundary_2
    (by rw [abs_of_nonpos (by norm_num)]; norm_num)
    (by rw [abs_of_nonpos (by norm_num)]; norm_num)
    (oscillating_short (by norm_num)) update_boundary_1]
  norm_num
  rw [show (2 : ℕ) = 1 + 1 from rfl]
  rw [secantLoop_cont beq_boundary_2 beq_boundary_32
    (by rw [abs_of_nonpos (by norm_num)]; norm_num)
    (by rw [abs_of_nonpos (by norm_num)]; norm_num)
    (oscillating_short (by norm_num)) update_boundary_2]
  norm_num
  rw [show (1 : ℕ) = 0 + 1 from rfl]
  rw [secantLoop_cont beq_boundary_32 beq_boundary_74
    (by rw [abs_of_nonpos (by norm_num)]; norm_num)
    (by rw [abs_of_nonpos (by norm_num)]; norm_num)
    (oscillating_short (by norm_num)) update_boundary_3]
  simp only [secantLoop]
  norm_num

/-- The constant-residual run: the slope collapses in the first iteration. -/
lemma run_flat_100 :
    secant_method bernoulli_equation (1 : ℚ) 2 flatParams (1 / 10 ^ 6) 100 =
      .ok (none, [(1, 2, -1)], false) := by
  simp only [secant_method]
  rw [if_neg (by norm_num), nudge_1_2]
  rw [show (100 : ℕ) = 99 + 1 from rfl]
  rw [secantLoop_slope (beq_flat 1) (beq_flat 2) (by norm_num) (by norm_num)]
  norm_num

/-- A converging run: the second guess already satisfies the tolerance. -/
lemma run_square_100 :
    secant_method bernoulli_equation (1 : ℚ) (1 / 2000) squareParams (1 / 10 ^ 6) 100 =
      .ok (some (1 / 2000), [(1, 1 / 2000, -(1 / 4000000))], true) := by
  simp only [secant_method]
  rw [if_neg (by norm_num), nudge_1_small]
  rw [show (100 : ℕ) = 99 + 1 from rfl]
  rw [secantLoop_conv beq_square_small (by rw [abs_of_nonpos (by norm_num)]; norm_num)]
  norm_num

/-- The analytical path of the boundary scenario: the radicand is `-15.62`. -/
lemma analytical_boundary_eval :
    analytical_solution boundaryParamsR = .error (.negRadicand (-781 / 50)) := by
  have hrad : analytical_radicand boundaryParamsR = -781 / 50 := by
    norm_num [analytical_radicand, boundaryParamsR]
  simp only [analytical_solution]
  rw [if_neg (by norm_num [boundaryParamsR]), if_pos (by rw [hrad]; norm_num), hrad]

/-- Trace of the first three iterations of the boundary-scenario run. -/
def oscTrace3 : List (ℕ × ℚ × ℚ) :=
  [(1, 2, -9810 / 101325), (2, 3 / 2, -8935 / 101325), (3, 7 / 4, -37365 / 405300)]

/-! ### Claims -/

/-- C1 (counterexample): on the spec's boundary inputs the analytical solver
does not return a value at all (it fails), and the secant solver started from
`x0 = 1`, `x1 = 2` with the default tolerance and budget does not converge. -/
theorem boundary_scenario_fails :
    (∃ e, analytical_solution boundaryParamsR = .error e) ∧
    (secant_method bernoulli_equation (1 : ℚ) 2 boundaryParams (1 / 10 ^ 6) 100).map
      (fun r => r.2.2) = .ok false := by
  constructor
  · exact ⟨_, analytical_boundary_eval⟩
  · rw [run_boundary_100]
    rfl

/-- C1 (amended): on the boundary inputs the analytical radicand is `-15.62`,
so the analytical solver raises a domain error carrying it, and the secant
run from `x0 = 1`, `x1 = 2` stops after four iterations with no solution and
`converged = false` (oscillation detected). -/
theorem boundary_scenario_actual :
    analytical_solution boundaryParamsR = .error (.negRadicand (-781 / 50)) ∧
    (secant_method bernoulli_equation (1 : ℚ) 2 boundaryParams (1 / 10 ^ 6) 100).map
      (fun r => (r.1, r.2.1.length, r.2.2)) = .ok (none, 4, false) := by
  refine ⟨analytical_boundary_eval, ?_⟩
  rw [run_boundary_100]
  rfl

/-- C2: for every pair of positive initial guesses and every parameter tuple,
if the secant solver returns with `converged = true`, the returned solution
satisfies `|f solution p| < tol` for the residual `f` passed to it. -/
theorem converged_implies_small_residual (f : α → Params α → α) (p : Params α)
    (tol : α) (m : ℕ) (x0 x1 : α) (r : Option α × List (ℕ × α × α) × Bool)
    (hx0 : 0 < x0) (hx1 : 0 < x1)
    (hr : secant_method f x0 x1 p tol m = .ok r) (hc : r.2.2 = true) :
    ∃ s, r.1 = some s ∧ |f s p| < tol := by
  have hval : ¬(x0 ≤ 0 ∨ x1 ≤ 0) := by
    push_neg
    exact ⟨hx0, hx1⟩
  simp only [secant_method] at hr
  rw [if_neg hval] at hr
  injection hr with hr
  subst hr
  exact secantLoop_converged_spec f p tol m 0 x0 (nudgeGuess tol x0 x1) [] hc

/-- C2 witness: a concrete converging run (residual `-v2 ^ 2`, second guess
already below tolerance). -/
theorem converged_implies_small_residual_witness :
    0 < (1 : ℚ) ∧ 0 < (1 / 2000 : ℚ) ∧
    secant_method bernoulli_equation (1 : ℚ) (1 / 2000) squareParams (1 / 10 ^ 6) 100 =
      .ok (some (1 / 2000), [(1, 1 / 2000, -(1 / 4000000))], true) ∧
    ∃ s, (some (1 / 2000 : ℚ)) = some s ∧ |bernoulli_equation s squareParams| < 1 / 10 ^ 6 :=
  ⟨by norm_num, by norm_num, run_square_100,
    converged_implies_small_residual bernoulli_equation squareParams (1 / 10 ^ 6) 100
      1 (1 / 2000) (some (1 / 2000), [(1, 1 / 2000, -(1 / 4000000))], true)
      (by norm_num) (by norm_num) run_square_100 rfl⟩

/-- C3: whenever the density is positive and the analytical radicand is
non-negative, the value returned by the analytical solver is a root of the
scaled Bernoulli residual (exactly, hence within the default tolerance). -/
theorem analytical_root_of_residual (p : Params ℝ) (hrho : 0 < p.rho)
    (hrad : 0 ≤ analytical_radicand p) (v : ℝ)
    (hv : analytical_solution p = .ok v) :
    |bernoulli_equation v p| < 1 / 10 ^ 6 := by
  have hrho0 : p.rho ≠ 0 := ne_of_gt hrho
  simp only [analytical_solution] at hv
  rw [if_neg hrho0, if_neg (not_lt.mpr hrad)] at hv
  injection hv with hv
  have hsq : v ^ 2 = analytical_radicand p := by
    rw [← hv]
    exact Real.sq_sqrt hrad
  unfold bernoulli_equation
  have hnum : p.P1 + 1 / 2 * p.rho * p.v1 ^ 2 + p.rho * p.g * p.h1 -
      (p.P2 + 1 / 2 * p.rho * v ^ 2 + p.rho * p.g * p.h2) = 0 := by
    rw [hsq]
    unfold analytical_radicand
    field_simp
    ring
  rw [hnum, zero_div, abs_zero]
  norm_num

/-- C3 witness: a parameter set with zero radicand, where the analytical
solver returns `0` and the residual there is `0`. -/
theorem analytical_root_of_residual_witness :
    0 < analyticalWitnessParams.rho ∧
    0 ≤ analytical_radicand analyticalWitnessParams ∧
    analytical_solution analyticalWitnessParams = .ok 0 ∧
    |bernoulli_equation (0 : ℝ) analyticalWitnessParams| < 1 / 10 ^ 6 := by
  have hrad0 : analytical_radicand analyticalWitnessParams = 0 := by
    norm_num [analytical_radicand, analyticalWitnessParams]
  have h1 : 0 < analyticalWitnessParams.rho := by
    norm_num [analyticalWitnessParams]
  have h2 : 0 ≤ analytical_radicand analyticalWitnessParams := by
    rw [hrad0]
  have h3 : analytical_solution analyticalWitnessParams = .ok 0 := by
    simp only [analytical_solution]
    rw [if_neg (by norm_num [analyticalWitnessParams]),
      if_neg (by rw [hrad0]; norm_num), hrad0, Real.sqrt_zero]
  exact ⟨h1, h2, h3, analytical_root_of_residual analyticalWitnessParams h1 h2 0 h3⟩

/-- C4 (counterexample): a run that exhausts its budget (three iterations for
a budget of three, `converged = false`) returns a present solution `13/8`,
not an absent one. -/
theorem budget_exhaustion_solution_present :
    (secant_method bernoulli_equation (1 : ℚ) 2 boundaryParams (1 / 10 ^ 6) 3).map
      (fun r => (r.1, r.2.1.length, r.2.2)) = .ok (some (13 / 8), 3, false) := by
  rw [run_boundary_3]
  rfl

/-- C4 (amended): the secant solver raises an error exactly when an initial
guess is non-positive; slope collapse and oscillation are reported through
`converged = false` with an absent solution, while budget exhaustion is
reported through `converged = false` with the last candidate present. -/
theorem error_only_on_nonpositive_guesses :
    (∀ (β : Type) [LinearOrderedField β] (f : β → Params β → β) (p : Params β)
      (tol : β) (m : ℕ) (x0 x1 : β),
      (∃ e, secant_method f x0 x1 p tol m = .error e) ↔ x0 ≤ 0 ∨ x1 ≤ 0) ∧
    (secant_method bernoulli_equation (1 : ℚ) 2 flatParams (1 / 10 ^ 6) 100).map
      (fun r => (r.1, r.2.2)) = .ok (none, false) ∧
    (secant_method bernoulli_equation (1 : ℚ) 2 boundaryParams (1 / 10 ^ 6) 100).map
      (fun r => (r.1, r.2.2)) = .ok (none, false) ∧
    (secant_method bernoulli_equation (1 : ℚ) 2 boundaryParams (1 / 10 ^ 6) 3).map
      (fun r => (r.1, r.2.1.length, r.2.2)) = .ok (some (13 / 8), 3, false) := by
  refine ⟨?_, ?_, ?_, ?_⟩
  · intro β _ f p tol m x0 x1
    constructor
    · rintro ⟨e, he⟩
      by_cases h : x0 ≤ 0 ∨ x1 ≤ 0
      · exact h
      · simp only [secant_method] at he
        rw [if_neg h] at he
        simp at he
    · intro h
      refine ⟨"Initial guesses must be positive", ?_⟩
      simp only [secant_method]
      rw [if_pos h]
  · rw [run_flat_100]
    rfl
  · rw [run_boundary_100]
    rfl
  · rw [run_boundary_3]
    rfl

/-- C5: the analytical solver fails exactly when the radicand is negative or
the density is zero (division fault); a negative radicand produces an error
carrying the radicand's value, and on the spec's failure inputs the radicand
is `-1999999` and the error is raised. -/
theorem analytical_domain_error_iff :
    (∀ p : Params ℝ, (∃ e, analytical_solution p = .error e) ↔
      analytical_radicand p < 0 ∨ p.rho = 0) ∧
    (∀ p : Params ℝ, analytical_radicand p < 0 →
      analytical_solution p = .error (.negRadicand (analytical_radicand p))) ∧
    analytical_solution failureParamsR = .error (.negRadicand (-1999999)) := by
  refine ⟨?_, ?_, ?_⟩
  · intro p
    unfold analytical_solution
    split_ifs with h0 h1
    · exact iff_of_true ⟨_, rfl⟩ (Or.inr h0)
    · exact iff_of_true ⟨_, rfl⟩ (Or.inl h1)
    · constructor
      · rintro ⟨e, he⟩
        simp at he
      · rintro (h | h)
        · exact absurd h h1
        · exact absurd h h0
  · intro p hneg
    have h0 : p.rho ≠ 0 := by
      intro h
      unfold analytical_radicand at hneg
      rw [h] at hneg
      norm_num at hneg
    unfold analytical_solution
    rw [if_neg h0, if_pos hneg]
  · have hrad : analytical_radicand failureParamsR = -1999999 := by
      norm_num [analytical_radicand, failureParamsR]
    simp only [analytical_solution]
    rw [if_neg (by norm_num [failureParamsR]), if_pos (by rw [hrad]; norm_num), hrad]

/-- C6: in an iteration that reaches the oscillation test (the residual at the
later candidate not within tolerance, the slope not below the collapse
threshold), the loop stops right there with no solution and `converged =
false` exactly when, the trace now holding more than three records, the last
two recorded residual magnitudes each strictly exceed the third-from-last. -/
theorem oscillation_terminates_iff (f : α → Params α → α) (p : Params α)
    (tol : α) (n i : ℕ) (x0 x1 : α) (iters : List (ℕ × α × α))
    (h1 : ¬|f x1 p| < tol)
    (h2 : ¬|(f x1 p - f x0 p) / (x1 - x0)| < 1 / 10 ^ 10) :
    (secantLoop f p tol (n + 1) i x0 x1 iters =
        (none, iters ++ [(i + 1, x1, f x1 p)], false)) ↔
      oscillating (iters ++ [(i + 1, x1, f x1 p)]) = true := by
  rw [secantLoop_succ_eq, if_neg h1, if_neg h2]
  by_cases hosc : oscillating (iters ++ [(i + 1, x1, f x1 p)]) = true
  · rw [if_pos hosc]
    exact iff_of_true rfl hosc
  · rw [if_neg hosc]
    refine iff_of_false ?_ hosc
    intro hEq
    cases n with
    | zero => simp [secantLoop] at hEq
    | succ m =>
      have hlen := secantLoop_length_succ f p tol m (i + 1) x1 (secantUpdate f p x0 x1)
        (iters ++ [(i + 1, x1, f x1 p)])
      rw [hEq] at hlen
      simp at hlen

/-- C6 witness: the fourth iteration of the boundary-scenario run, where the
oscillation test fires. -/
theorem oscillation_terminates_iff_witness :
    ¬|bernoulli_equation (13 / 8 : ℚ) boundaryParams| < 1 / 10 ^ 6 ∧
    ¬|(bernoulli_equation (13 / 8 : ℚ) boundaryParams -
        bernoulli_equation (7 / 4) boundaryParams) / (13 / 8 - 7 / 4)| < 1 / 10 ^ 10 ∧
    ((secantLoop bernoulli_equation boundaryParams (1 / 10 ^ 6) (0 + 1) 3 (7 / 4) (13 / 8)
        oscTrace3 =
        (none, oscTrace3 ++
          [(3 + 1, 13 / 8, bernoulli_equation (13 / 8) boundaryParams)], false)) ↔
      oscillating (oscTrace3 ++
        [(3 + 1, 13 / 8, bernoulli_equation (13 / 8) boundaryParams)]) = true) :=
  ⟨by rw [beq_boundary_138, abs_of_nonpos (by norm_num)]; norm_num,
    by rw [beq_boundary_138, beq_boundary_74]; rw [abs_of_nonpos (by norm_num)]; norm_num,
    oscillation_terminates_iff bernoulli_equation boundaryParams (1 / 10 ^ 6) 0 3
      (7 / 4) (13 / 8) oscTrace3
      (by rw [beq_boundary_138, abs_of_nonpos (by norm_num)]; norm_num)
      (by rw [beq_boundary_138, beq_boundary_74]; rw [abs_of_nonpos (by norm_num)]; norm_num)⟩

/-- C7: for positive initial guesses, every candidate recorded in the returned
trace is strictly positive. -/
theorem trace_candidates_positive (f : α → Params α → α) (p : Params α)
    (tol : α) (m : ℕ) (x0 x1 : α) (r : Option α × List (ℕ × α × α) × Bool)
    (hx0 : 0 < x0) (hx1 : 0 < x1)
    (hr : secant_method f x0 x1 p tol m = .ok r) :
    ∀ e ∈ r.2.1, 0 < e.2.1 := by
  have hval : ¬(x0 ≤ 0 ∨ x1 ≤ 0) := by
    push_neg
    exact ⟨hx0, hx1⟩
  simp only [secant_method] at hr
  rw [if_neg hval] at hr
  injection hr with hr
  subst hr
  exact secantLoop_pos_trace f p tol m 0 x0 (nudgeGuess tol x0 x1) [] hx0
    (nudgeGuess_pos hx0 hx1) (by simp)

/-- C7 witness: the boundary-scenario run, in which every raw secant update is
non-positive and is replaced by a (positive) midpoint. -/
theorem trace_candidates_positive_witness :
    0 < (1 : ℚ) ∧ 0 < (2 : ℚ) ∧
    secant_method bernoulli_equation (1 : ℚ) 2 boundaryParams (1 / 10 ^ 6) 100 =
      .ok (none, [(1, 2, -9810 / 101325), (2, 3 / 2, -8935 / 101325),
        (3, 7 / 4, -37365 / 405300), (4, 13 / 8, -146085 / 1621200)], false) ∧
    ∀ e ∈ ([(1, (2 : ℚ), (-9810 / 101325 : ℚ)), (2, 3 / 2, -8935 / 101325),
        (3, 7 / 4, -37365 / 405300), (4, 13 / 8, -146085 / 1621200)] :
        List (ℕ × ℚ × ℚ)), 0 < e.2.1 :=
  ⟨by norm_num, by norm_num, run_boundary_100,
    trace_candidates_positive bernoulli_equation boundaryParams (1 / 10 ^ 6) 100 1 2
      (none, [(1, 2, -9810 / 101325), (2, 3 / 2, -8935 / 101325),
        (3, 7 / 4, -37365 / 405300), (4, 13 / 8, -146085 / 1621200)], false)
      (by norm_num) (by norm_num) run_boundary_100⟩

/-- C8: when the two initial guesses are within tolerance of each other, the
solver runs the loop with the second guess replaced by `x0 * 1.1` (and raises
no error). -/
theorem close_guesses_nudged (f : α → Params α → α) (p : Params α) (tol : α)
    (m : ℕ) (x0 x1 : α) (hx0 : 0 < x0) (hx1 : 0 < x1) (hclose : |x1 - x0| < tol) :
    secant_method f x0 x1 p tol m =
      .ok (secantLoop f p tol m 0 x0 (x0 * (11 / 10)) []) := by
  have hval : ¬(x0 ≤ 0 ∨ x1 ≤ 0) := by
    push_neg
    exact ⟨hx0, hx1⟩
  simp only [secant_method, nudgeGuess]
  rw [if_neg hval, if_pos hclose]

/-- C8 witness: equal guesses `x0 = x1 = 5` are adjusted to `5.5` and the run
proceeds without an error. -/
theorem close_guesses_nudged_witness :
    0 < (5 : ℚ) ∧ |(5 : ℚ) - 5| < 1 / 10 ^ 6 ∧ (5 : ℚ) * (11 / 10) = 11 / 2 ∧
    secant_method bernoulli_equation (5 : ℚ) 5 boundaryParams (1 / 10 ^ 6) 2 =
      .ok (secantLoop bernoulli_equation boundaryParams (1 / 10 ^ 6) 2 0 5
        (5 * (11 / 10)) []) :=
  ⟨by norm_num, by norm_num, by norm_num,
    close_guesses_nudged bernoulli_equation boundaryParams (1 / 10 ^ 6) 2 5 5
      (by norm_num) (by norm_num) (by norm_num)⟩

/-- C9: a run with at least one unit of budget that exhausts it (present
solution, `converged = false`) returns the candidate produced by the update
step of the final iteration: one step beyond the candidate in the last trace
record, whose residual was not within tolerance; the trace has exactly
`max_iter` records, so the returned candidate's residual was never compared
against the tolerance. -/
theorem exhaustion_returns_unchecked_candidate (f : α → Params α → α)
    (p : Params α) (tol : α) (m : ℕ) (x0 x1 s : α) (tr : List (ℕ × α × α))
    (hm : 1 ≤ m)
    (hr : secant_method f x0 x1 p tol m = .ok (some s, tr, false)) :
    ∃ y0 y1, s = secantUpdate f p y0 y1 ∧
      tr.getLast? = some (m, y1, f y1 p) ∧ ¬|f y1 p| < tol ∧ tr.length = m := by
  by_cases hval : x0 ≤ 0 ∨ x1 ≤ 0
  · simp only [secant_method] at hr
    rw [if_pos hval] at hr
    exact absurd hr (by simp)
  · simp only [secant_method] at hr
    rw [if_neg hval] at hr
    injection hr with hr
    obtain ⟨n, rfl⟩ : ∃ n, m = n + 1 := ⟨m - 1, by omega⟩
    have hs : (secantLoop f p tol (n + 1) 0 x0 (nudgeGuess tol x0 x1) []).1 = some s := by
      rw [hr]
    have hc : (secantLoop f p tol (n + 1) 0 x0 (nudgeGuess tol x0 x1) []).2.2 = false := by
      rw [hr]
    obtain ⟨y0, y1, hy, hlast, hytol, hlen⟩ :=
      secantLoop_exhaust_spec f p tol n 0 x0 (nudgeGuess tol x0 x1) [] s hs hc
    rw [hr] at hlast hlen
    refine ⟨y0, y1, hy, ?_, hytol, ?_⟩
    · simpa using hlast
    · simpa using hlen

/-- C9 witness: the boundary scenario with a budget of three iterations; the
returned `13/8` is the midpoint update of the final iteration and appears in
no trace record. -/
theorem exhaustion_returns_unchecked_candidate_witness :
    1 ≤ 3 ∧
    secant_method bernoulli_equation (1 : ℚ) 2 boundaryParams (1 / 10 ^ 6) 3 =
      .ok (some (13 / 8), oscTrace3, false) ∧
    ∃ y0 y1, (13 / 8 : ℚ) = secantUpdate bernoulli_equation boundaryParams y0 y1 ∧
      oscTrace3.getLast? = some (3, y1, bernoulli_equation y1 boundaryParams) ∧
      ¬|bernoulli_equation y1 boundaryParams| < 1 / 10 ^ 6 ∧ oscTrace3.length = 3 :=
  ⟨by norm_num, run_boundary_3,
    exhaustion_returns_unchecked_candidate bernoulli_equation boundaryParams
      (1 / 10 ^ 6) 3 1 2 (13 / 8) oscTrace3 (by norm_num) run_boundary_3⟩

/-- C10: with a positive tolerance and positive guesses, the two working
candidates are distinct at the start of every loop pass — the nudge makes the
initial pair distinct, and any accepted update (secant step past both guards,
or midpoint of two distinct points) differs from the previous later candidate
and stays positive — so the slope's denominator is never zero. -/
theorem loop_guesses_distinct (f : α → Params α → α) (p : Params α)
    (tol x0 x1 : α) (htol : 0 < tol) (hx0 : 0 < x0) (hx1 : 0 < x1) :
    x0 ≠ nudgeGuess tol x0 x1 ∧
    ∀ y0 y1 : α, y0 ≠ y1 → 0 < y0 → 0 < y1 → ¬|f y1 p| < tol →
      ¬|(f y1 p - f y0 p) / (y1 - y0)| < 1 / 10 ^ 10 →
      y1 - y0 ≠ 0 ∧ secantUpdate f p y0 y1 ≠ y1 ∧ 0 < secantUpdate f p y0 y1 := by
  constructor
  · unfold nudgeGuess
    split_ifs with h
    · intro heq
      have : x0 = 0 := by linarith
      exact absurd this (ne_of_gt hx0)
    · intro heq
      subst heq
      apply h
      simpa using htol
  · intro y0 y1 hne hy0 hy1 hftol hslope
    have hsub : y1 - y0 ≠ 0 := sub_ne_zero.mpr (Ne.symm hne)
    have hf1 : f y1 p ≠ 0 := by
      intro h0
      apply hftol
      rw [h0, abs_zero]
      exact htol
    have hden : f y1 p - f y0 p ≠ 0 := by
      intro h0
      apply hslope
      rw [h0, zero_div, abs_zero]
      positivity
    refine ⟨hsub, ?_, secantUpdate_pos f p hy0 hy1⟩
    unfold secantUpdate
    split_ifs with h
    · intro heq
      exact hne (by linarith)
    · intro heq
      have ht : f y1 p * (y1 - y0) / (f y1 p - f y0 p) = 0 := by linarith
      rcases div_eq_zero_iff.mp ht with h' | h'
      · rcases mul_eq_zero.mp h' with h'' | h''
        · exact hf1 h''
        · exact hsub h''
      · exact hden h'

/-- C10 witness: instantiation at the boundary scenario's call. -/
theorem loop_guesses_distinct_witness :
    0 < (1 / 10 ^ 6 : ℚ) ∧ 0 < (1 : ℚ) ∧ 0 < (2 : ℚ) ∧
    ((1 : ℚ) ≠ nudgeGuess (1 / 10 ^ 6) 1 2 ∧
      ∀ y0 y1 : ℚ, y0 ≠ y1 → 0 < y0 → 0 < y1 →
        ¬|bernoulli_equation y1 boundaryParams| < 1 / 10 ^ 6 →
        ¬|(bernoulli_equation y1 boundaryParams - bernoulli_equation y0 boundaryParams) /
            (y1 - y0)| < 1 / 10 ^ 10 →
        y1 - y0 ≠ 0 ∧ secantUpdate bernoulli_equation boundaryParams y0 y1 ≠ y1 ∧
          0 < secantUpdate bernoulli_equation boundaryParams y0 y1) :=
  ⟨by norm_num, by norm_num, by norm_num,
    loop_guesses_distinct bernoulli_equation boundaryParams (1 / 10 ^ 6) 1 2
      (by norm_num) (by norm_num) (by norm_num)⟩

end Bernoulli
